import Mathlib

/-
Verification of the GCE integration-test harness
(integration_test/gce-testing-internal/gce/gce_testing.go).

The Go code is shallowly embedded: each Go function that a claim is about is
translated into an executable Lean function over explicit inputs.  External
effects (gcloud invocations, backend query iterators, environment variables)
are passed in as explicit values: an iterator becomes a list of its yields, a
sequence of gcloud outcomes becomes a function from the attempt number to the
error produced on that attempt, and the relevant environment variables become
fields of a record.  Go errors become an inductive type carrying enough
structure for the substring and status-code classification the code performs;
a nil error is `none`.
-/

namespace Gce

/-! ## Characters and substrings

Go classifies errors by `strings.Contains` / `HasPrefix` / `HasSuffix` on the
error message.  These are embedded as executable functions on the character
lists of the strings so that concrete instances can be settled by `decide`. -/

/-- Embeds a check that `needle` is a leading segment of `hay`
(`strings.HasPrefix hay needle` in Go). -/
def leadMatch : List Char → List Char → Bool
  | [], _ => true
  | _ :: _, [] => false
  | a :: as, b :: bs => a == b && leadMatch as bs

/-- Embeds a search for `needle` anywhere inside `hay`. -/
def subSearch : List Char → List Char → Bool
  | needle, [] => leadMatch needle []
  | needle, b :: bs => leadMatch needle (b :: bs) || subSearch needle bs

/-- Embeds Go `strings.Contains hay needle`. -/
def strContains (hay needle : String) : Bool :=
  subSearch needle.data hay.data

/-- Embeds Go `strings.HasPrefix s p`. -/
def strStarts (s p : String) : Bool :=
  leadMatch p.data s.data

/-- Embeds Go `strings.HasSuffix s p`. -/
def strEnds (s p : String) : Bool :=
  leadMatch p.data.reverse s.data.reverse

/-! ## Errors

Go errors relevant to the claims.  `GoError` distinguishes the sentinel
`ErrInvalidIteratorLength`, gRPC status errors (the monitoring backend), and
plain message errors (gcloud and wrapping).  `fmt.Errorf` with `%v` does not
wrap, so the wrapped constructors are opaque to `errors.Is`. -/

/-- Embeds the gRPC status codes gce_testing.go inspects (google.golang.org/grpc/codes). -/
inductive GrpcCode where
  | notFound
  | internal
  | resourceExhausted
  | unavailable
  | unknownCode
deriving DecidableEq, Repr

def grpcCodeText : GrpcCode → String
  | .notFound => "NotFound"
  | .internal => "Internal"
  | .resourceExhausted => "ResourceExhausted"
  | .unavailable => "Unavailable"
  | .unknownCode => "Unknown"

/-- Embeds the Go `error` values produced and inspected by gce_testing.go.
`invalidIteratorLength` is the package sentinel `ErrInvalidIteratorLength`;
`grpcStatus` is an error from which `status.FromError` recovers a code;
`msg` is any other error, identified by its message; `multi` is
`multierr.Append` of two non-nil errors; the wrapped constructors are the
non-wrapping `fmt.Errorf(..., %v)` calls in WaitForMetricSeries and
AssertMetricMissing; `exhaustedRetries` is the final error of the metric wait
loops; `panicked` marks the `panic` in nonEmptySeriesList. -/
inductive GoError where
  | invalidIteratorLength : GoError
  | grpcStatus : GrpcCode → GoError
  | msg : String → GoError
  | multi : GoError → GoError → GoError
  | waitForMetricWrapped : GoError → GoError
  | assertMetricMissingWrapped : GoError → GoError
  | exhaustedRetries : String → GoError
  | panicked : String → GoError
deriving DecidableEq, Repr

/-- Embeds `err.Error()`, the message text of an error, which the retry
classifiers match substrings against. -/
def GoError.errText : GoError → String
  | .invalidIteratorLength => "iterator length is less than the defined minimum length"
  | .grpcStatus c => "rpc error: code = " ++ grpcCodeText c
  | .msg s => s
  | .multi e1 e2 => e1.errText ++ "; " ++ e2.errText
  | .waitForMetricWrapped e => "WaitForMetric: " ++ e.errText
  | .assertMetricMissingWrapped e => "AssertMetricMissing: " ++ e.errText
  | .exhaustedRetries fn => fn ++ " failed: exhausted retries"
  | .panicked s => "panic: " ++ s

/-- Embeds `multierr.Append(left, right)` for a non-nil `left`: a nil `right`
leaves `left` unchanged, otherwise both are combined. -/
def appendErr (e : GoError) : Option GoError → GoError
  | none => e
  | some d => .multi e d

/-- Embeds `status.FromError`: the status code is recovered exactly from
gRPC status errors (`ok` is false for every other error). -/
def statusFromError : GoError → Option GrpcCode
  | .grpcStatus c => some c
  | _ => none

/-! ## Metric query model

`monClient.ListTimeSeries` returns an iterator; its successive `Next()` yields
are embedded as a list: element `Except.ok s` is a yielded time series,
`Except.error e` is an iterator failure, and the end of the list is
`iterator.Done`. -/

structure DataPoint where
  value : Int
deriving DecidableEq, Repr

/-- Embeds `monitoringpb.TimeSeries` restricted to the field the harness
inspects: its list of points. -/
structure TimeSeries where
  points : List DataPoint
deriving DecidableEq, Repr

/-- One metric query evaluation: the successive yields of a
`monitoring.TimeSeriesIterator`. -/
abbrev MetricIter := List (Except GoError TimeSeries)

/-- Embeds the constant `QueryMaxAttempts = 40` of gce_testing.go. -/
def QueryMaxAttempts : Nat := 40

/-- Embeds the constant `queryMaxAttemptsMetricMissing = 5` of gce_testing.go. -/
def queryMaxAttemptsMetricMissing : Nat := 5

/-- Embeds `isRetriableLookupError`: true for the sentinel
`ErrInvalidIteratorLength` (via `errors.Is`) and for gRPC status errors with
code NotFound, Internal or ResourceExhausted. -/
def isRetriableLookupError (e : GoError) : Bool :=
  if e = .invalidIteratorLength then true
  else
    match statusFromError e with
    | some c => c = .notFound || c = .internal || c = .resourceExhausted
    | none => false

/-- Embeds the iterator loop of `nonEmptySeriesList`: `tsList` is the
accumulator of non-empty series collected so far.  At `iterator.Done` the Go
code returns `(nil, nil)` on an empty accumulator, `ErrInvalidIteratorLength`
when fewer than `minimumRequiredSeries` series were collected, and the list on
success; an iterator error is returned as-is; series with no points are
skipped. -/
def neslGo (minimumRequiredSeries : Int) :
    MetricIter → List TimeSeries → Option (List TimeSeries) × Option GoError
  | [], tsList =>
    if tsList.length = 0 then (none, none)
    else if (tsList.length : Int) < minimumRequiredSeries then
      (none, some .invalidIteratorLength)
    else (some tsList, none)
  | .error e :: _, _ => (none, some e)
  | .ok series :: rest, tsList =>
    if series.points.length = 0 then neslGo minimumRequiredSeries rest tsList
    else neslGo minimumRequiredSeries rest (tsList ++ [series])

/-- Embeds `nonEmptySeriesList(logger, it, minimumRequiredSeries)`.  The Go
function panics when `minimumRequiredSeries < 1`; the panic is embedded as the
distinguished `panicked` error. -/
def nonEmptySeriesList (it : MetricIter) (minimumRequiredSeries : Int) :
    Option (List TimeSeries) × Option GoError :=
  if minimumRequiredSeries < 1 then
    (none, some (.panicked "minimumRequiredSeries cannot be negative or 0"))
  else neslGo minimumRequiredSeries it []

/-- Embeds the retry loop of `WaitForMetricSeries`: each list element is the
iterator produced by one `lookupMetric` call; the result of the whole call is
paired with the number of query attempts actually made.  An exhausted attempt
budget produces the `exhausted retries` error; a non-retriable lookup error is
wrapped (non-transparently, `%v`) and returned at once. -/
def wfmsGo (minimumRequiredSeries : Int) :
    List MetricIter → (Option (List TimeSeries) × Option GoError) × Nat
  | [] => ((none, some (.exhaustedRetries "WaitForMetricSeries")), 0)
  | it :: rest =>
    match nonEmptySeriesList it minimumRequiredSeries with
    | (some tsList, none) => ((some tsList, none), 1)
    | (_, some e) =>
      if isRetriableLookupError e then
        let r := wfmsGo minimumRequiredSeries rest
        (r.1, r.2 + 1)
      else ((none, some (.waitForMetricWrapped e)), 1)
    | (none, none) =>
      let r := wfmsGo minimumRequiredSeries rest
      (r.1, r.2 + 1)

/-- Embeds `WaitForMetricSeries`: `attempts` lists the iterator each of the
(up to `QueryMaxAttempts`) query attempts would observe. -/
def WaitForMetricSeries (attempts : List MetricIter) (minimumRequiredSeries : Int) :
    Option (List TimeSeries) × Option GoError :=
  (wfmsGo minimumRequiredSeries attempts).1

/-- Number of query attempts `WaitForMetricSeries` actually performs on the
given attempt outcomes. -/
def wfmsAttemptsUsed (attempts : List MetricIter) (minimumRequiredSeries : Int) : Nat :=
  (wfmsGo minimumRequiredSeries attempts).2

/-- Embeds `WaitForMetric`: calls `WaitForMetricSeries` with a minimum of one
series and returns the first series of the result. -/
def WaitForMetric (attempts : List MetricIter) : Option TimeSeries × Option GoError :=
  match WaitForMetricSeries attempts 1 with
  | (_, some e) => (none, some e)
  | (series, none) => ((series.getD []).head?, none)

/-- Embeds the loop of `AssertMetricMissing`: one list element per query
attempt, `cnt` is `descriptorNotFoundErrCount`.  On a confirmed-empty
evaluation the function returns success at once; on actual data or a
non-retriable error it returns an error at once; retriable errors are counted
(NotFound ones, in Prometheus mode) and retried.  After the last attempt,
non-Prometheus mode fails outright, and Prometheus mode fails unless every
attempt failed with NotFound. -/
def ammGo (isPrometheus : Bool) : List MetricIter → Nat → Option GoError
  | [], cnt =>
    if !isPrometheus then
      some (.msg "AssertMetricMissing failed: no successful queries to the backend")
    else if cnt ≠ queryMaxAttemptsMetricMissing then
      some (.msg "AssertMetricMissing failed: atleast one query failed with something other than a NOT_FOUND error")
    else none
  | it :: rest, cnt =>
    let res := nonEmptySeriesList it 1
    let found := 0 < (res.1.getD []).length
    match res.2 with
    | none =>
      if found then some (.msg "AssertMetricMissing failed: unexpectedly found data for metric")
      else none
    | some e =>
      if !isRetriableLookupError e then some (.assertMetricMissingWrapped e)
      else
        ammGo isPrometheus rest
          (if statusFromError e = some .notFound && isPrometheus then cnt + 1 else cnt)

/-- Embeds `AssertMetricMissing`: `attempts` lists the iterator each of the
`queryMaxAttemptsMetricMissing` query attempts would observe. -/
def AssertMetricMissing (attempts : List MetricIter) (isPrometheus : Bool) : Option GoError :=
  ammGo isPrometheus attempts 0

/-! ## Data model of the Resource Lifecycle Manager -/

/-- Embeds the `OS` struct (the ID field of /etc/os-release, or "windows"). -/
structure OSInfo where
  id : String
deriving DecidableEq, Repr

/-- Embeds the `VM` struct of gce_testing.go. -/
structure VM where
  name : String
  project : String
  network : String
  imageSpec : String
  os : OSInfo
  zone : String
  machineType : String
  id : Int
  ipAddress : String
  alreadyDeleted : Bool
deriving DecidableEq, Repr

/-- Embeds `ManagedInstanceGroupVM`, a VM with derived group/template names. -/
structure ManagedInstanceGroupVM where
  vm : VM
deriving DecidableEq, Repr

def ManagedInstanceGroupVM.managedInstanceGroupName (m : ManagedInstanceGroupVM) : String :=
  m.vm.name ++ "-mig"

def ManagedInstanceGroupVM.instanceTemplateName (m : ManagedInstanceGroupVM) : String :=
  m.vm.name ++ "-tmpl"

/-- Embeds `VMOptions` (metadata, labels and extra arguments are carried but
unread by the embedded control flow). -/
structure VMOptions where
  imageSpec : String
  timeToLive : String
  name : String
  project : String
  zone : String
  metadata : List (String × String)
  labels : List (String × String)
  machineType : String
  imageFamilyScope : String
  extraCreateArguments : List String
deriving DecidableEq, Repr

/-- Embeds the environment the harness reads while creating a VM: the
NETWORK_NAME / PROJECT / INSTANCE_SIZE variables, the random name a nameless
VM receives, the random name given to a Managed Instance Group VM, and the
zone the zone picker yields. -/
structure GceEnv where
  networkName : String
  project : String
  instanceSize : String
  generatedName : String
  generatedMigName : String
  pickedZone : String
deriving DecidableEq, Repr

/-- Embeds `IsWindows`: the image spec starts with "windows-". -/
def IsWindows (imageSpec : String) : Bool :=
  strStarts imageSpec "windows-"

/-- Embeds `IsWindowsCore`: Windows image spec ending in "-core". -/
def IsWindowsCore (imageSpec : String) : Bool :=
  IsWindows imageSpec && strEnds imageSpec "-core"

/-- Embeds `IsSUSEImageSpec`. -/
def IsSUSEImageSpec (imageSpec : String) : Bool :=
  strStarts imageSpec "suse-" || strStarts imageSpec "opensuse-" ||
    strContains imageSpec "sles-"

/-- Embeds `IsARM`: the image spec mentions "arm64". -/
def IsARM (imageSpec : String) : Bool :=
  strContains imageSpec "arm64"

/-- Embeds `createVMFromVMOptions`: fills in defaults for name, project,
network, zone and machine type (INSTANCE_SIZE takes precedence over
options.MachineType, then "e2-standard-4", or "t2a-standard-4" on ARM). -/
def createVMFromVMOptions (env : GceEnv) (options : VMOptions) : VM :=
  let vm : VM :=
    { name := options.name
      project := options.project
      network := env.networkName
      imageSpec := options.imageSpec
      os := { id := "" }
      zone := options.zone
      machineType := ""
      id := 0
      ipAddress := ""
      alreadyDeleted := false }
  let vm := if vm.name = "" then { vm with name := env.generatedName } else vm
  let vm := if vm.project = "" then { vm with project := env.project } else vm
  let vm := if vm.network = "" then { vm with network := "default" } else vm
  let vm := if vm.zone = "" then { vm with zone := env.pickedZone } else vm
  let vm := { vm with machineType := env.instanceSize }
  let vm := if vm.machineType = "" then { vm with machineType := options.machineType } else vm
  let vm :=
    if vm.machineType = "" then
      { vm with machineType := if IsARM vm.imageSpec then "t2a-standard-4" else "e2-standard-4" }
    else vm
  vm

/-! ## Deletion -/

/-- Classification a deletion attempt error receives: returned directly
(retriable under the backoff policy) or wrapped in `backoff.Permanent`. -/
inductive RetryClass where
  | retriable : GoError → RetryClass
  | permanent : GoError → RetryClass
deriving DecidableEq, Repr

/-- Embeds `handleDeleteError(err, attempt)`: nil stays nil; "Quota" and
"Error 50" messages are retried; a "not found" message is converted to
success only when this is not the first attempt; everything else becomes a
permanent error. -/
def handleDeleteError (err : Option GoError) (attempt : Nat) : Option RetryClass :=
  match err with
  | none => none
  | some e =>
    if strContains e.errText "Quota" then some (.retriable e)
    else if strContains e.errText "Error 50" then some (.retriable e)
    else if strContains e.errText "not found" && decide (1 < attempt) then none
    else some (.permanent e)

/-- Embeds `backoff.WithMaxRetries(backoff.NewConstantBackOff(30s), 10)`:
one initial try plus ten retries. -/
def deleteMaxTries : Nat := 11

/-- Embeds `backoff.Retry` over a deletion operation: `outcome n` is the error
gcloud produces on try `n` (numbered from 1), classified by
`handleDeleteError`.  Returns the final error together with the number of
gcloud invocations issued.  The fuel argument counts the tries remaining;
a retriable error on the last allowed try is returned directly, a permanent
error is unwrapped and returned at once. -/
def deleteRetryGo (outcome : Nat → Option GoError) : Nat → Nat → Option GoError × Nat
  | _, 0 => (none, 0)
  | attempt, fuel + 1 =>
    match handleDeleteError (outcome attempt) attempt with
    | none => (none, attempt)
    | some (.permanent e) => (some e, attempt)
    | some (.retriable e) =>
      if fuel = 0 then (some e, attempt)
      else deleteRetryGo outcome (attempt + 1) fuel

def deleteRetryLoop (outcome : Nat → Option GoError) : Option GoError × Nat :=
  deleteRetryGo outcome 1 deleteMaxTries

/-- Embeds `DeleteInstance(logger, vm)`: a no-op on an already-deleted VM,
otherwise the retried `gcloud compute instances delete`; on success the
`AlreadyDeleted` flag is set.  The result carries the (possibly updated) VM,
the returned error, and the number of gcloud deletion invocations issued. -/
def DeleteInstance (vm : VM) (outcome : Nat → Option GoError) :
    VM × (Option GoError × Nat) :=
  if vm.alreadyDeleted then (vm, (none, 0))
  else
    let r := deleteRetryLoop outcome
    match r.1 with
    | none => ({ vm with alreadyDeleted := true }, (none, r.2))
    | some e => (vm, (some e, r.2))

/-- The cloud resources a deletion command can target. -/
inductive DeleteCmd where
  | vmInstance
  | instanceGroup
  | instanceTemplate
deriving DecidableEq, Repr

/-- Embeds `DeleteManagedInstanceGroupVM(logger, migVM)`: a no-op on an
already-deleted VM; otherwise the retried `instance-groups managed delete`
followed, only on its success, by the retried `instance-templates delete`;
the `AlreadyDeleted` flag is set only when both succeed.  The result carries
the (possibly updated) value, the returned error, and the ordered list of
gcloud deletion commands issued. -/
def DeleteManagedInstanceGroupVM (migVM : ManagedInstanceGroupVM)
    (groupOutcome templateOutcome : Nat → Option GoError) :
    ManagedInstanceGroupVM × Option GoError × List DeleteCmd :=
  if migVM.vm.alreadyDeleted then (migVM, none, [])
  else
    let g := deleteRetryLoop groupOutcome
    let gCmds := List.replicate g.2 DeleteCmd.instanceGroup
    match g.1 with
    | some e => (migVM, some e, gCmds)
    | none =>
      let t := deleteRetryLoop templateOutcome
      let cmds := gCmds ++ List.replicate t.2 DeleteCmd.instanceTemplate
      match t.1 with
      | none => ({ vm := { migVM.vm with alreadyDeleted := true } }, none, cmds)
      | some e => (migVM, some e, cmds)

/-! ## Creation -/

/-- Embeds the message constants that `shouldRetryCreateVM` matches. -/
def prepareSLESMessage : String := "prepareSLES() failed"

def startupFailedMessage : String :=
  "waitForStartLinux() failed: waiting for startup timed out"

def windowsStartupFailedMessage : String :=
  "waitForStartWindows() failed: ran out of attempts waiting for dummy command to run."

/-- Embeds `shouldRetryCreateVM(err, options)`. -/
def shouldRetryCreateVM (e : GoError) (options : VMOptions) : Bool :=
  strContains e.errText "Quota" ||
  strContains e.errText "Internal error" ||
  strContains e.errText "currently unavailable" ||
  strContains e.errText "database is locked" ||
  (IsWindowsCore options.imageSpec && strContains e.errText windowsStartupFailedMessage) ||
  (IsSUSEImageSpec options.imageSpec && strContains e.errText startupFailedMessage) ||
  strContains e.errText prepareSLESMessage

/-- Embeds `shouldRetryCreateManagedInstanceGroupVM(err, options)`. -/
def shouldRetryCreateManagedInstanceGroupVM (e : GoError) (options : VMOptions) : Bool :=
  shouldRetryCreateVM e options ||
    strContains e.errText "Timeout while waiting for group to become stable."

/-- The external outcomes one `attemptCreateInstance` call observes:
the error of `additionalCreateInstanceArgs`, the result of the gcloud create
invocation (stdout on success), the results of parsing the instance ID and IP
address out of that output, the error of `verifyVMCreation`, and the gcloud
outcomes the cleanup `DeleteInstance` would see. -/
structure AttemptEnv where
  additionalArgsErr : Option GoError
  createOutcome : Except GoError String
  extractIDResult : Except GoError Int
  extractIPResult : Except GoError String
  verifyErr : Option GoError
  cleanupDeleteOutcome : Nat → Option GoError

/-- Embeds the part of `attemptCreateInstance` that runs under its deferred
cleanup: ID extraction, IP extraction and readiness verification.  Returns the
final value of the local `vm` variable (which the deferred function reads)
together with the `(vmToReturn, errToReturn)` pair. -/
def attemptCreateInstanceBody (vm0 : VM) (A : AttemptEnv) :
    VM × (Option VM × Option GoError) :=
  match A.extractIDResult with
  | .error e => (vm0, (none, some e))
  | .ok theID =>
    let vm1 := { vm0 with id := theID }
    match A.extractIPResult with
    | .error e => (vm1, (none, some e))
    | .ok ip =>
      let vm2 := { vm1 with ipAddress := ip }
      match A.verifyErr with
      | some e => (vm2, (none, some e))
      | none => (vm2, (some vm2, none))

/-- Embeds the deferred function of `attemptCreateInstance`: on an error it
appends the error of the cleanup `DeleteInstance` (multierr) and nils the
returned VM.  The Go code also turns a nil VM with nil error into a
programming error, but the local `vm` is never nil (it is built by
`createVMFromVMOptions`), so that branch is unreachable and the embedded local
VM is a plain value. -/
def attemptDefer (localVM : VM) (cleanupOutcome : Nat → Option GoError) :
    Option VM × Option GoError → Option VM × Option GoError
  | (_, some e) => (none, some (appendErr e (DeleteInstance localVM cleanupOutcome).2.1))
  | (v, none) => (v, none)

/-- Embeds `attemptCreateInstance(ctx, logger, options)`.  The two returns
before the `defer` statement (argument construction and the gcloud create
call) return their error without cleanup. -/
def attemptCreateInstance (env : GceEnv) (options : VMOptions) (A : AttemptEnv) :
    Option VM × Option GoError :=
  let vm := createVMFromVMOptions env options
  match A.additionalArgsErr with
  | some e => (none, some e)
  | none =>
    match A.createOutcome with
    | .error e => (none, some e)
    | .ok _ =>
      let body := attemptCreateInstanceBody vm A
      attemptDefer body.1 A.cleanupDeleteOutcome body.2

/-- Embeds the retry loop of `CreateInstance` (backoff.Retry with a constant
backoff, bounded by a context deadline of three VM-init timeouts): each list
element is the environment one creation attempt observes; an empty list is
the context expiring, which `backoff.Retry` surfaces as the context error. -/
def createInstanceLoop (env : GceEnv) (options : VMOptions) :
    List AttemptEnv → Option VM × Option GoError
  | [] => (none, some (.msg "context deadline exceeded"))
  | A :: rest =>
    match attemptCreateInstance env options A with
    | (v, none) => (v, none)
    | (_, some e) =>
      if shouldRetryCreateVM e options then createInstanceLoop env options rest
      else (none, some e)

/-- Embeds `CreateInstance(origCtx, logger, options)`. -/
def CreateInstance (env : GceEnv) (options : VMOptions) (attempts : List AttemptEnv) :
    Option VM × Option GoError :=
  createInstanceLoop env options attempts

/-- The external outcomes one `attemptCreateManagedInstanceGroupVM` call
observes: the five gcloud invocations (template create, group create,
create-instance, wait-until stable, instances list), ID/IP extraction,
readiness verification, and the gcloud outcomes the cleanup
`DeleteManagedInstanceGroupVM` would see. -/
structure MigAttemptEnv where
  additionalArgsErr : Option GoError
  createTemplateOutcome : Except GoError String
  createGroupOutcome : Except GoError String
  createVMOutcome : Except GoError String
  waitStableOutcome : Except GoError String
  listVMOutcome : Except GoError String
  extractIDResult : Except GoError Int
  extractIPResult : Except GoError String
  verifyErr : Option GoError
  cleanupGroupOutcome : Nat → Option GoError
  cleanupTemplateOutcome : Nat → Option GoError

/-- Embeds steps 2 through 5 of `attemptCreateManagedInstanceGroupVM`, which
run under its deferred cleanup, mirroring `attemptCreateInstanceBody`. -/
def attemptCreateMigBody (vm0 : VM) (A : MigAttemptEnv) :
    VM × (Option ManagedInstanceGroupVM × Option GoError) :=
  match A.createGroupOutcome with
  | .error e => (vm0, (none, some e))
  | .ok _ =>
  match A.createVMOutcome with
  | .error e => (vm0, (none, some e))
  | .ok _ =>
  match A.waitStableOutcome with
  | .error e => (vm0, (none, some e))
  | .ok _ =>
  match A.listVMOutcome with
  | .error e => (vm0, (none, some e))
  | .ok _ =>
  match A.extractIDResult with
  | .error e => (vm0, (none, some e))
  | .ok theID =>
    let vm1 := { vm0 with id := theID }
    match A.extractIPResult with
    | .error e => (vm1, (none, some e))
    | .ok ip =>
      let vm2 := { vm1 with ipAddress := ip }
      match A.verifyErr with
      | some e => (vm2, (none, some e))
      | none => (vm2, (some { vm := vm2 }, none))

/-- Embeds the deferred function of `attemptCreateManagedInstanceGroupVM`. -/
def migAttemptDefer (localVM : VM) (A : MigAttemptEnv) :
    Option ManagedInstanceGroupVM × Option GoError →
      Option ManagedInstanceGroupVM × Option GoError
  | (_, some e) =>
    (none,
      some (appendErr e
        (DeleteManagedInstanceGroupVM { vm := localVM }
          A.cleanupGroupOutcome A.cleanupTemplateOutcome).2.1))
  | (v, none) => (v, none)

/-- Embeds `attemptCreateManagedInstanceGroupVM(ctx, logger, options)`: the
options name is overwritten with a generated sandbox name, and the two returns
before the `defer` statement return their error without cleanup. -/
def attemptCreateManagedInstanceGroupVM (env : GceEnv) (options : VMOptions)
    (A : MigAttemptEnv) : Option ManagedInstanceGroupVM × Option GoError :=
  let vm := createVMFromVMOptions env { options with name := env.generatedMigName }
  match A.additionalArgsErr with
  | some e => (none, some e)
  | none =>
    match A.createTemplateOutcome with
    | .error e => (none, some e)
    | .ok _ =>
      let body := attemptCreateMigBody vm A
      migAttemptDefer body.1 A body.2

/-- Embeds the retry loop of `CreateManagedInstanceGroupVM`, mirroring
`createInstanceLoop`. -/
def createMigLoop (env : GceEnv) (options : VMOptions) :
    List MigAttemptEnv → Option ManagedInstanceGroupVM × Option GoError
  | [] => (none, some (.msg "context deadline exceeded"))
  | A :: rest =>
    match attemptCreateManagedInstanceGroupVM env options A with
    | (v, none) => (v, none)
    | (_, some e) =>
      if shouldRetryCreateManagedInstanceGroupVM e options then
        createMigLoop env options rest
      else (none, some e)

/-- Embeds `CreateManagedInstanceGroupVM(origCtx, logger, options)`. -/
def CreateManagedInstanceGroupVM (env : GceEnv) (options : VMOptions)
    (attempts : List MigAttemptEnv) : Option ManagedInstanceGroupVM × Option GoError :=
  createMigLoop env options attempts

/-! ## Zone Selector -/

/-- Modelled from the spec: the state of the `weightedRoundRobin` zone picker
built by `newZonePicker`, whose implementation is not under src/ (only its
caller in gce_testing.go is).  Per the spec it is an ordered list of
(zone, weight) pairs plus a cursor; weights are positive integers, the default
weight is 1, and selection is deterministic given the same seed state. -/
structure WeightedRoundRobin where
  zones : List (String × Nat)
  cursor : Nat
deriving DecidableEq, Repr

/-- Modelled from the spec: the deterministic selection sequence of classic
weighted round-robin, each zone repeated its weight number of times in
configuration order. -/
def wrrExpand (zones : List (String × Nat)) : List String :=
  zones.flatMap fun zw => List.replicate zw.2 zw.1

/-- Sum of the configured weights (the window length N of the spec). -/
def wrrWeightSum (zones : List (String × Nat)) : Nat :=
  (zones.map Prod.snd).sum

/-- Modelled from the spec: `Next()` returns the zone at the cursor position
of the expanded weighted sequence and advances the cursor. -/
def WeightedRoundRobin.next (p : WeightedRoundRobin) : String × WeightedRoundRobin :=
  let seq := wrrExpand p.zones
  (seq.getD (p.cursor % seq.length) "", { zones := p.zones, cursor := p.cursor + 1 })

/-- The zones returned by `n` consecutive `Next()` calls starting from state
`p` (a window of `n` calls). -/
def wrrWindow (p : WeightedRoundRobin) : Nat → List String
  | 0 => []
  | n + 1 => (p.next).1 :: wrrWindow (p.next).2 n

/-! ## Iterator summaries

Executable summaries of a metric iterator, used to state hypotheses about
query attempts: whether the iterator is error-free, and the non-empty series
it yields (in order). -/

/-- True when the iterator never fails (every yield is a time series). -/
def iterNoError (it : MetricIter) : Bool :=
  it.all fun x =>
    match x with
    | .ok _ => true
    | .error _ => false

/-- The non-empty time series an iterator yields, in order — exactly the ones
`nonEmptySeriesList` collects. -/
def neslFiltered (it : MetricIter) : List TimeSeries :=
  it.filterMap fun x =>
    match x with
    | .ok s => if s.points.length = 0 then none else some s
    | .error _ => none

/-- The `iterator.Done` branch of `nonEmptySeriesList`, applied to the final
accumulator. -/
def neslDone (minimumRequiredSeries : Int) (tsList : List TimeSeries) :
    Option (List TimeSeries) × Option GoError :=
  if tsList.length = 0 then (none, none)
  else if (tsList.length : Int) < minimumRequiredSeries then
    (none, some .invalidIteratorLength)
  else (some tsList, none)

/-! ## Example values used by witnesses and counterexamples -/

/-- A query evaluation yielding exactly one time series with one point. -/
def oneSeriesIter : MetricIter := [Except.ok { points := [{ value := 7 }] }]

/-- A VM whose `AlreadyDeleted` flag is already set. -/
def vmDeletedExample : VM :=
  { name := "vm-a"
    project := "proj"
    network := "default"
    imageSpec := "debian-cloud:debian-12"
    os := { id := "debian" }
    zone := "us-central1-a"
    machineType := "e2-standard-4"
    id := 12345
    ipAddress := "10.0.0.2"
    alreadyDeleted := true }

/-- A live VM (`AlreadyDeleted` still false). -/
def vmLiveExample : VM :=
  { vmDeletedExample with name := "vm-b", alreadyDeleted := false }

/-! ## Helper lemmas about deletion -/

/-- The deletion retry loop issues at least its first gcloud invocation. -/
theorem deleteRetryGo_count_ge (outcome : Nat → Option GoError) :
    ∀ (fuel attempt : Nat), 1 ≤ fuel → attempt ≤ (deleteRetryGo outcome attempt fuel).2 := by
  intro fuel
  induction fuel with
  | zero => intro attempt h; omega
  | succ f ih =>
    intro attempt _
    show attempt ≤ (deleteRetryGo outcome attempt (f + 1)).2
    rw [deleteRetryGo]
    cases handleDeleteError (outcome attempt) attempt with
    | none => simp
    | some rc =>
      cases rc with
      | permanent e => simp
      | retriable e =>
        by_cases hf : f = 0
        · simp [hf]
        · have h1 : 1 ≤ f := Nat.one_le_iff_ne_zero.mpr hf
          have := ih (attempt + 1) h1
          simp only [hf, if_false]
          omega

theorem deleteRetryLoop_count_ge (outcome : Nat → Option GoError) :
    1 ≤ (deleteRetryLoop outcome).2 := by
  have := deleteRetryGo_count_ge outcome deleteMaxTries 1 (by decide)
  simpa [deleteRetryLoop] using this

/-! ## Helper lemmas about creation -/

theorem attemptCreateInstanceBody_exclusive (vm0 : VM) (A : AttemptEnv) :
    ((attemptCreateInstanceBody vm0 A).2.1).isSome
      = ((attemptCreateInstanceBody vm0 A).2.2).isNone := by
  rcases A with ⟨aErr, cOut, idRes, ipRes, vErr, cleanup⟩
  cases idRes <;> cases ipRes <;> cases vErr <;> simp [attemptCreateInstanceBody]

theorem attemptDefer_exclusive (localVM : VM) (cl : Nat → Option GoError)
    (p : Option VM × Option GoError) (hp : (p.1).isSome = (p.2).isNone) :
    ((attemptDefer localVM cl p).1).isSome = ((attemptDefer localVM cl p).2).isNone := by
  rcases p with ⟨v, e⟩
  cases e with
  | none => simpa [attemptDefer] using hp
  | some e => simp [attemptDefer]

theorem attemptCreateInstance_exclusive (env : GceEnv) (options : VMOptions) (A : AttemptEnv) :
    ((attemptCreateInstance env options A).1).isSome
      = ((attemptCreateInstance env options A).2).isNone := by
  unfold attemptCreateInstance
  cases hA : A.additionalArgsErr with
  | some e => simp
  | none =>
    cases hC : A.createOutcome with
    | error e => simp
    | ok s => exact attemptDefer_exclusive _ _ _ (attemptCreateInstanceBody_exclusive _ A)

theorem createInstanceLoop_exclusive (env : GceEnv) (options : VMOptions) :
    ∀ attempts, ((createInstanceLoop env options attempts).1).isSome
      = ((createInstanceLoop env options attempts).2).isNone := by
  intro attempts
  induction attempts with
  | nil => simp [createInstanceLoop]
  | cons A rest ih =>
    rw [createInstanceLoop]
    rcases hA : attemptCreateInstance env options A with ⟨v, e⟩
    cases e with
    | none =>
      have hx := attemptCreateInstance_exclusive env options A
      rw [hA] at hx
      simpa using hx
    | some e =>
      by_cases hr : shouldRetryCreateVM e options
      · simpa [hr] using ih
      · simp [hr]

theorem attemptCreateMigBody_exclusive (vm0 : VM) (A : MigAttemptEnv) :
    ((attemptCreateMigBody vm0 A).2.1).isSome
      = ((attemptCreateMigBody vm0 A).2.2).isNone := by
  rcases A with ⟨aErr, tOut, gOut, vOut, wOut, lOut, idRes, ipRes, vErr, cg, ct⟩
  cases gOut <;> cases vOut <;> cases wOut <;> cases lOut <;> cases idRes <;>
    cases ipRes <;> cases vErr <;> simp [attemptCreateMigBody]

theorem migAttemptDefer_exclusive (localVM : VM) (A : MigAttemptEnv)
    (p : Option ManagedInstanceGroupVM × Option GoError)
    (hp : (p.1).isSome = (p.2).isNone) :
    ((migAttemptDefer localVM A p).1).isSome = ((migAttemptDefer localVM A p).2).isNone := by
  rcases p with ⟨v, e⟩
  cases e with
  | none => simpa [migAttemptDefer] using hp
  | some e => simp [migAttemptDefer]

theorem attemptCreateMig_exclusive (env : GceEnv) (options : VMOptions) (A : MigAttemptEnv) :
    ((attemptCreateManagedInstanceGroupVM env options A).1).isSome
      = ((attemptCreateManagedInstanceGroupVM env options A).2).isNone := by
  unfold attemptCreateManagedInstanceGroupVM
  cases hA : A.additionalArgsErr with
  | some e => simp
  | none =>
    cases hC : A.createTemplateOutcome with
    | error e => simp
    | ok s => exact migAttemptDefer_exclusive _ _ _ (attemptCreateMigBody_exclusive _ A)

theorem createMigLoop_exclusive (env : GceEnv) (options : VMOptions) :
    ∀ attempts, ((createMigLoop env options attempts).1).isSome
      = ((createMigLoop env options attempts).2).isNone := by
  intro attempts
  induction attempts with
  | nil => simp [createMigLoop]
  | cons A rest ih =>
    rw [createMigLoop]
    rcases hA : attemptCreateManagedInstanceGroupVM env options A with ⟨v, e⟩
    cases e with
    | none =>
      have hx := attemptCreateMig_exclusive env options A
      rw [hA] at hx
      simpa using hx
    | some e =>
      by_cases hr : shouldRetryCreateManagedInstanceGroupVM e options
      · simpa [hr] using ih
      · simp [hr]

/-! ## Claims -/

/-- C1: every creation call — `attemptCreateInstance`, `CreateInstance`,
`attemptCreateManagedInstanceGroupVM` and `CreateManagedInstanceGroupVM` —
returns exactly one non-nil value: the resource object is present precisely
when the returned error is nil. -/
theorem creation_returns_exactly_one :
    ∀ (env : GceEnv) (options : VMOptions) (A : AttemptEnv)
      (attempts : List AttemptEnv) (M : MigAttemptEnv)
      (migAttempts : List MigAttemptEnv),
      ((attemptCreateInstance env options A).1).isSome
          = ((attemptCreateInstance env options A).2).isNone ∧
      ((CreateInstance env options attempts).1).isSome
          = ((CreateInstance env options attempts).2).isNone ∧
      ((attemptCreateManagedInstanceGroupVM env options M).1).isSome
          = ((attemptCreateManagedInstanceGroupVM env options M).2).isNone ∧
      ((CreateManagedInstanceGroupVM env options migAttempts).1).isSome
          = ((CreateManagedInstanceGroupVM env options migAttempts).2).isNone :=
  fun env options A attempts M migAttempts =>
    ⟨attemptCreateInstance_exclusive env options A,
     createInstanceLoop_exclusive env options attempts,
     attemptCreateMig_exclusive env options M,
     createMigLoop_exclusive env options migAttempts⟩

/-- C2: a VM (or Managed Instance Group VM) whose `AlreadyDeleted` flag is
true makes `DeleteInstance` (resp. `DeleteManagedInstanceGroupVM`) perform no
deletion work — zero gcloud invocations, no issued deletion commands — and
return nil, leaving the object unchanged. -/
theorem delete_already_deleted_is_noop :
    ∀ (vm : VM) (outcome : Nat → Option GoError)
      (migVM : ManagedInstanceGroupVM) (g t : Nat → Option GoError),
      vm.alreadyDeleted = true → migVM.vm.alreadyDeleted = true →
      DeleteInstance vm outcome = (vm, (none, 0)) ∧
      DeleteManagedInstanceGroupVM migVM g t = (migVM, none, []) := by
  intro vm outcome migVM g t h1 h2
  constructor
  · simp [DeleteInstance, h1]
  · simp [DeleteManagedInstanceGroupVM, h2]

/-- Witness for C2 at a concrete already-deleted VM and failing gcloud
outcomes. -/
theorem delete_already_deleted_is_noop_witness :
    DeleteInstance vmDeletedExample (fun _ => some (.msg "backend exploded"))
        = (vmDeletedExample, (none, 0)) ∧
    DeleteManagedInstanceGroupVM { vm := vmDeletedExample }
        (fun _ => some (.msg "backend exploded")) (fun _ => none)
        = ({ vm := vmDeletedExample }, none, []) :=
  delete_already_deleted_is_noop vmDeletedExample (fun _ => some (.msg "backend exploded"))
    { vm := vmDeletedExample } (fun _ => some (.msg "backend exploded")) (fun _ => none)
    rfl rfl

/-- C9: on a VM not yet deleted, `DeleteInstance` sets `AlreadyDeleted` if and
only if the retried deletion succeeded and nil is returned; on a non-nil error
the VM is unchanged (flag still false), so a subsequent call performs at least
one fresh gcloud deletion invocation. -/
theorem deleteInstance_flag_iff_success :
    ∀ (vm : VM) (outcome : Nat → Option GoError), vm.alreadyDeleted = false →
      ((DeleteInstance vm outcome).2.1 = none →
          (DeleteInstance vm outcome).1 = { vm with alreadyDeleted := true }) ∧
      ((DeleteInstance vm outcome).2.1 ≠ none → (DeleteInstance vm outcome).1 = vm) ∧
      ((DeleteInstance vm outcome).1.alreadyDeleted = true ↔
          (DeleteInstance vm outcome).2.1 = none) ∧
      ((DeleteInstance vm outcome).2.1 ≠ none →
        ∀ outcome2 : Nat → Option GoError,
          1 ≤ (DeleteInstance (DeleteInstance vm outcome).1 outcome2).2.2) := by
  intro vm outcome h
  cases hr : (deleteRetryLoop outcome).1 with
  | none =>
    refine ⟨?_, ?_, ?_, ?_⟩ <;> simp [DeleteInstance, h, hr]
  | some e =>
    have hres : DeleteInstance vm outcome = (vm, (some e, (deleteRetryLoop outcome).2)) := by
      simp [DeleteInstance, h, hr]
    refine ⟨?_, ?_, ?_, ?_⟩
    · intro hc; rw [hres] at hc; simp at hc
    · intro _; rw [hres]
    · rw [hres]; simp [h]
    · intro _ outcome2
      rw [hres]
      have hc := deleteRetryLoop_count_ge outcome2
      cases hr2 : (deleteRetryLoop outcome2).1 <;>
        simp [DeleteInstance, h, hr2] <;> omega

/-- Witness for C9: a concrete live VM whose deletion permanently fails is
returned unchanged. -/
theorem deleteInstance_flag_iff_success_witness :
    (DeleteInstance vmLiveExample (fun _ => some (.msg "backend exploded"))).1
        = vmLiveExample :=
  (deleteInstance_flag_iff_success vmLiveExample
      (fun _ => some (.msg "backend exploded")) rfl).2.1 (by decide)

/-- Counterexample to C7 as stated: the error message
"Quota exceeded: instance not found" contains "not found" and the attempt
number 2 is greater than 1, yet `handleDeleteError` does not convert it to
success — the "Quota" check has precedence and returns the error for retry. -/
theorem handleDeleteError_precedence_counterexample :
    strContains (GoError.msg "Quota exceeded: instance not found").errText "not found" = true ∧
    1 < 2 ∧
    handleDeleteError (some (.msg "Quota exceeded: instance not found")) 2
        = some (.retriable (.msg "Quota exceeded: instance not found")) := by
  decide

/-- C7 (amended): in the deletion retry loop, a conversion to success happens
only for an error containing "not found" on an attempt after the first; the
conversion happens whenever additionally the message contains neither "Quota"
nor "Error 50" (which take precedence and are retried); and no error is ever
converted to success on the first attempt. -/
theorem handleDeleteError_not_found_rule :
    ∀ (e : GoError) (attempt : Nat),
      (handleDeleteError (some e) attempt = none →
        strContains e.errText "not found" = true ∧ 1 < attempt) ∧
      (strContains e.errText "not found" = true →
        strContains e.errText "Quota" = false →
        strContains e.errText "Error 50" = false →
        1 < attempt →
        handleDeleteError (some e) attempt = none) ∧
      (attempt ≤ 1 → handleDeleteError (some e) attempt ≠ none) := by
  intro e attempt
  simp only [handleDeleteError]
  by_cases hq : strContains e.errText "Quota" = true
  · simp [hq]
  · by_cases h5 : strContains e.errText "Error 50" = true
    · simp [hq, h5]
    · by_cases hn : strContains e.errText "not found" = true
      · by_cases ha : 1 < attempt
        · simp [hq, h5, hn, ha]
        · simp [hq, h5, hn, ha]
      · simp [hq, h5, hn]

/-- Witness for C7 (amended) at a concrete "not found" error on the second
attempt, converted to success. -/
theorem handleDeleteError_not_found_rule_witness :
    handleDeleteError (some (.msg "googleapi: Error 404: resource vm-b was not found")) 2
        = none :=
  (handleDeleteError_not_found_rule
      (.msg "googleapi: Error 404: resource vm-b was not found") 2).2.1
    (by decide) (by decide) (by decide) (by decide)

/-- Counterexample to C6 as stated: with every gcloud deletion succeeding on
its first try, `DeleteManagedInstanceGroupVM` issues exactly two deletion
commands — the managed instance group and then the instance template — and
never a separate VM-instance deletion, so it does not issue three deletions
with the instance first. -/
theorem deleteMig_two_commands_counterexample :
    (DeleteManagedInstanceGroupVM { vm := vmLiveExample }
        (fun _ => none) (fun _ => none)).2.2
      = [DeleteCmd.instanceGroup, DeleteCmd.instanceTemplate] ∧
    DeleteCmd.vmInstance ∉
      (DeleteManagedInstanceGroupVM { vm := vmLiveExample }
        (fun _ => none) (fun _ => none)).2.2 ∧
    ((DeleteManagedInstanceGroupVM { vm := vmLiveExample }
        (fun _ => none) (fun _ => none)).2.2).length ≠ 3 := by
  decide

/-- C6 (amended): `DeleteManagedInstanceGroupVM` issues its deletion commands
in dependency order — every managed-instance-group deletion precedes every
instance-template deletion (the group deletion also deletes the VM inside the
group) — and never issues a separate VM-instance deletion command. -/
theorem deleteMig_command_order :
    ∀ (migVM : ManagedInstanceGroupVM) (g t : Nat → Option GoError),
      ∃ a b : Nat,
        (DeleteManagedInstanceGroupVM migVM g t).2.2 =
          List.replicate a DeleteCmd.instanceGroup ++
            List.replicate b DeleteCmd.instanceTemplate ∧
        DeleteCmd.vmInstance ∉ (DeleteManagedInstanceGroupVM migVM g t).2.2 := by
  intro migVM g t
  by_cases hd : migVM.vm.alreadyDeleted
  · refine ⟨0, 0, ?_, ?_⟩ <;> simp [DeleteManagedInstanceGroupVM, hd]
  · cases hg : (deleteRetryLoop g).1 with
    | some e =>
      refine ⟨(deleteRetryLoop g).2, 0, ?_, ?_⟩ <;>
        simp [DeleteManagedInstanceGroupVM, hd, hg, List.mem_replicate]
    | none =>
      cases ht : (deleteRetryLoop t).1 with
      | none =>
        refine ⟨(deleteRetryLoop g).2, (deleteRetryLoop t).2, ?_, ?_⟩ <;>
          simp [DeleteManagedInstanceGroupVM, hd, hg, ht, List.mem_replicate]
      | some e =>
        refine ⟨(deleteRetryLoop g).2, (deleteRetryLoop t).2, ?_, ?_⟩ <;>
          simp [DeleteManagedInstanceGroupVM, hd, hg, ht, List.mem_replicate]

/-! ## Helper lemmas about the metric query loops -/

/-- On an error-free iterator, the `nonEmptySeriesList` loop reaches its
`iterator.Done` branch with the accumulator extended by exactly the non-empty
series of the iterator. -/
theorem neslGo_noError (m : Int) :
    ∀ it : MetricIter, iterNoError it = true →
      ∀ acc, neslGo m it acc = neslDone m (acc ++ neslFiltered it) := by
  intro it
  induction it with
  | nil => intro _ acc; simp [neslGo, neslDone, neslFiltered]
  | cons x rest ih =>
    intro hx acc
    cases x with
    | error e => simp [iterNoError] at hx
    | ok s =>
      have hrest : iterNoError rest = true := by
        simpa [iterNoError] using hx
      by_cases hp : s.points.length = 0
      · have hp' : s.points = [] := List.length_eq_zero.mp hp
        simp [neslGo, hp, neslFiltered, List.filterMap_cons, hp', ih hrest]
      · have hp' : ¬s.points = [] := fun hc => hp (by simp [hc])
        simp [neslGo, hp, neslFiltered, List.filterMap_cons, hp', ih hrest,
          List.append_assoc]

theorem nonEmptySeriesList_noError (it : MetricIter) (m : Int) (hm : 1 ≤ m)
    (h : iterNoError it = true) :
    nonEmptySeriesList it m = neslDone m (neslFiltered it) := by
  unfold nonEmptySeriesList
  rw [if_neg (by omega), neslGo_noError m it h []]
  simp

/-- Every series the `nonEmptySeriesList` loop returns has at least one
point, provided the accumulator does. -/
theorem neslGo_points_nonempty (m : Int) :
    ∀ (it : MetricIter) (acc l : List TimeSeries),
      (∀ s ∈ acc, s.points ≠ []) →
      (neslGo m it acc).1 = some l → ∀ s ∈ l, s.points ≠ [] := by
  intro it
  induction it with
  | nil =>
    intro acc l hacc hl
    by_cases h0 : acc.length = 0
    · simp [neslGo, h0] at hl
    · by_cases h1 : (acc.length : Int) < m
      · simp [neslGo, h0, h1] at hl
      · simp [neslGo, h0, h1] at hl
        exact hl ▸ hacc
  | cons x rest ih =>
    intro acc l hacc hl
    cases x with
    | error e => simp [neslGo] at hl
    | ok s =>
      by_cases hp : s.points.length = 0
      · rw [neslGo, if_pos hp] at hl
        exact ih acc l hacc hl
      · rw [neslGo, if_neg hp] at hl
        refine ih (acc ++ [s]) l ?_ hl
        intro s' hs'
        rcases List.mem_append.mp hs' with h | h
        · exact hacc s' h
        · have : s' = s := by simpa using h
          subst this
          intro hcon
          exact hp (by simp [hcon])

theorem nonEmptySeriesList_points_nonempty (it : MetricIter) (m : Int)
    (l : List TimeSeries) (h : (nonEmptySeriesList it m).1 = some l) :
    ∀ s ∈ l, s.points ≠ [] := by
  unfold nonEmptySeriesList at h
  by_cases hm : m < 1
  · simp [hm] at h
  · rw [if_neg hm] at h
    exact neslGo_points_nonempty m it [] l (by simp) h

/-- A successful `WaitForMetricSeries` result comes from a successful
`nonEmptySeriesList` evaluation, so all its series have points. -/
theorem wfmsGo_success_points (m : Int) :
    ∀ (attempts : List MetricIter) (l : List TimeSeries),
      ((wfmsGo m attempts).1).1 = some l → ∀ s ∈ l, s.points ≠ [] := by
  intro attempts
  induction attempts with
  | nil => intro l hl; simp [wfmsGo] at hl
  | cons it rest ih =>
    intro l hl
    rw [wfmsGo] at hl
    rcases hn : nonEmptySeriesList it m with ⟨ts, e⟩
    rw [hn] at hl
    cases e with
    | none =>
      cases ts with
      | none =>
        simp at hl
        exact ih l hl
      | some tsList =>
        simp at hl
        refine nonEmptySeriesList_points_nonempty it m l ?_
        rw [hn, hl]
    | some e =>
      by_cases hr : isRetriableLookupError e
      · cases ts <;> simp [hr] at hl <;> exact ih l hl
      · cases ts <;> simp [hr] at hl

/-- When every attempt evaluates to a retriable lookup error, the
`WaitForMetricSeries` loop consumes its whole budget and ends with the
`exhausted retries` error. -/
theorem wfmsGo_all_retriable_error (m : Int) :
    ∀ attempts : List MetricIter,
      (∀ it ∈ attempts, ∃ e, nonEmptySeriesList it m = (none, some e) ∧
          isRetriableLookupError e = true) →
      wfmsGo m attempts
        = ((none, some (.exhaustedRetries "WaitForMetricSeries")), attempts.length) := by
  intro attempts
  induction attempts with
  | nil => intro _; simp [wfmsGo]
  | cons it rest ih =>
    intro h
    obtain ⟨e, he, hr⟩ := h it (by simp)
    rw [wfmsGo, he]
    simp only [hr, if_true]
    rw [ih fun i hi => h i (by simp [hi])]
    simp

/-- When every attempt evaluates to confirmed-empty, the `WaitForMetricSeries`
loop consumes its whole budget and ends with the `exhausted retries` error. -/
theorem wfmsGo_all_empty (m : Int) :
    ∀ attempts : List MetricIter,
      (∀ it ∈ attempts, nonEmptySeriesList it m = (none, none)) →
      wfmsGo m attempts
        = ((none, some (.exhaustedRetries "WaitForMetricSeries")), attempts.length) := by
  intro attempts
  induction attempts with
  | nil => intro _; simp [wfmsGo]
  | cons it rest ih =>
    intro h
    rw [wfmsGo, h it (by simp)]
    rw [ih fun i hi => h i (by simp [hi])]
    simp

/-- Counterexample to C5 as stated: with every one of the `QueryMaxAttempts`
query attempts succeeding with zero data points, `WaitForMetricSeries` returns
a non-nil "exhausted retries" error — not `(nil, nil)`. -/
theorem wfms_all_empty_counterexample :
    WaitForMetricSeries (List.replicate QueryMaxAttempts ([] : MetricIter)) 1
        = (none, some (.exhaustedRetries "WaitForMetricSeries")) ∧
    WaitForMetricSeries (List.replicate QueryMaxAttempts ([] : MetricIter)) 1
        ≠ (none, none) := by
  decide

/-- C5 (amended): if every query attempt over the full retry budget succeeds
with zero data points, each per-attempt `nonEmptySeriesList` evaluation
returns `(nil, nil)`, and `WaitForMetricSeries` consumes every attempt and
returns a nil series list together with a non-nil "exhausted retries" error
(not `(nil, nil)`). -/
theorem wfms_all_empty_exhausted :
    ∀ (attempts : List MetricIter) (m : Int), 1 ≤ m →
      (∀ it ∈ attempts, iterNoError it = true ∧ neslFiltered it = []) →
      (∀ it ∈ attempts, nonEmptySeriesList it m = (none, none)) ∧
      WaitForMetricSeries attempts m
          = (none, some (.exhaustedRetries "WaitForMetricSeries")) ∧
      wfmsAttemptsUsed attempts m = attempts.length := by
  intro attempts m hm h
  have hemp : ∀ it ∈ attempts, nonEmptySeriesList it m = (none, none) := by
    intro it hit
    obtain ⟨hne, hfe⟩ := h it hit
    rw [nonEmptySeriesList_noError it m hm hne, hfe]
    simp [neslDone]
  have hloop := wfmsGo_all_empty m attempts hemp
  refine ⟨hemp, ?_, ?_⟩
  · simp [WaitForMetricSeries, hloop]
  · simp [wfmsAttemptsUsed, hloop]

/-- Witness for C5 (amended) at the full budget of empty query attempts. -/
theorem wfms_all_empty_exhausted_witness :
    WaitForMetricSeries (List.replicate QueryMaxAttempts ([] : MetricIter)) 2
        = (none, some (.exhaustedRetries "WaitForMetricSeries")) :=
  (wfms_all_empty_exhausted (List.replicate QueryMaxAttempts ([] : MetricIter)) 2
    (by decide) (by decide)).2.1

/-- Counterexample to C4 as stated: with `minimumRequiredSeries = 2` and every
query attempt yielding exactly one non-empty series, `WaitForMetricSeries`
does not return `ErrInvalidIteratorLength` after one iterator exhaustion — it
retries through the entire `QueryMaxAttempts` budget and returns the
"exhausted retries" error. -/
theorem wfms_min_two_counterexample :
    WaitForMetricSeries (List.replicate QueryMaxAttempts oneSeriesIter) 2
        ≠ (none, some .invalidIteratorLength) ∧
    WaitForMetricSeries (List.replicate QueryMaxAttempts oneSeriesIter) 2
        = (none, some (.exhaustedRetries "WaitForMetricSeries")) ∧
    wfmsAttemptsUsed (List.replicate QueryMaxAttempts oneSeriesIter) 2
        = QueryMaxAttempts := by
  decide

/-- C4 (amended): with `minimumRequiredSeries = 2` and every query attempt
yielding exactly one non-empty series, each per-attempt `nonEmptySeriesList`
evaluation returns `ErrInvalidIteratorLength` after exhausting its iterator
once; `isRetriableLookupError` classifies that error retriable, so
`WaitForMetricSeries` retries through the full attempt budget and finally
returns an "exhausted retries" error instead. -/
theorem wfms_min_two_retries_full_budget :
    ∀ attempts : List MetricIter,
      (∀ it ∈ attempts, iterNoError it = true ∧ (neslFiltered it).length = 1) →
      (∀ it ∈ attempts, nonEmptySeriesList it 2 = (none, some .invalidIteratorLength)) ∧
      WaitForMetricSeries attempts 2
          = (none, some (.exhaustedRetries "WaitForMetricSeries")) ∧
      wfmsAttemptsUsed attempts 2 = attempts.length := by
  intro attempts h
  have hinv : ∀ it ∈ attempts,
      nonEmptySeriesList it 2 = (none, some .invalidIteratorLength) := by
    intro it hit
    obtain ⟨hne, hlen⟩ := h it hit
    rw [nonEmptySeriesList_noError it 2 (by omega) hne]
    simp [neslDone, hlen]
  have hloop := wfmsGo_all_retriable_error 2 attempts fun it hit =>
    ⟨.invalidIteratorLength, hinv it hit, by decide⟩
  refine ⟨hinv, ?_, ?_⟩
  · simp [WaitForMetricSeries, hloop]
  · simp [wfmsAttemptsUsed, hloop]

/-- Witness for C4 (amended) at the full budget of one-series query
attempts. -/
theorem wfms_min_two_retries_full_budget_witness :
    WaitForMetricSeries (List.replicate QueryMaxAttempts oneSeriesIter) 2
        = (none, some (.exhaustedRetries "WaitForMetricSeries")) ∧
    wfmsAttemptsUsed (List.replicate QueryMaxAttempts oneSeriesIter) 2
        = (List.replicate QueryMaxAttempts oneSeriesIter).length :=
  (wfms_min_two_retries_full_budget (List.replicate QueryMaxAttempts oneSeriesIter)
    (by decide)).2

/-- C10: every time series returned by `nonEmptySeriesList` — and hence by
`WaitForMetricSeries` and `WaitForMetric` — contains at least one data point;
series with an empty point list are skipped and never appear in a successful
result. -/
theorem returned_series_have_points :
    (∀ (it : MetricIter) (m : Int) (l : List TimeSeries),
        (nonEmptySeriesList it m).1 = some l → ∀ s ∈ l, s.points ≠ []) ∧
    (∀ (attempts : List MetricIter) (m : Int) (l : List TimeSeries),
        (WaitForMetricSeries attempts m).1 = some l → ∀ s ∈ l, s.points ≠ []) ∧
    (∀ (attempts : List MetricIter) (s : TimeSeries),
        (WaitForMetric attempts).1 = some s → s.points ≠ []) := by
  refine ⟨nonEmptySeriesList_points_nonempty, ?_, ?_⟩
  · intro attempts m l hl
    exact wfmsGo_success_points m attempts l hl
  · intro attempts s hs
    unfold WaitForMetric at hs
    rcases hw : WaitForMetricSeries attempts 1 with ⟨series, e⟩
    rw [hw] at hs
    cases e with
    | some e => simp at hs
    | none =>
      cases series with
      | none => simp at hs
      | some l =>
        cases l with
        | nil => simp at hs
        | cons a t =>
          simp at hs
          have hw1 : ((wfmsGo 1 attempts).1).1 = some (a :: t) := by
            have : (WaitForMetricSeries attempts 1).1 = some (a :: t) := by rw [hw]
            exact this
          have hmem := wfmsGo_success_points 1 attempts (a :: t) hw1 a (by simp)
          exact hs ▸ hmem

/-- Witness for C10 at a concrete one-series iterator. -/
theorem returned_series_have_points_witness :
    ({ points := [{ value := 7 }] } : TimeSeries).points ≠ [] :=
  returned_series_have_points.1 [Except.ok { points := [{ value := 7 }] }] 1
    [{ points := [{ value := 7 }] }] (by decide)
    { points := [{ value := 7 }] } (by simp)

/-! ## Helper lemmas about AssertMetricMissing -/

/-- When every attempt fails with a NotFound status, the Prometheus-mode loop
counts them all and succeeds only if the count reaches the attempt budget. -/
theorem ammGo_all_notfound :
    ∀ (attempts : List MetricIter) (cnt : Nat),
      (∀ it ∈ attempts, (nonEmptySeriesList it 1).2 = some (.grpcStatus .notFound)) →
      ammGo true attempts cnt =
        if cnt + attempts.length ≠ queryMaxAttemptsMetricMissing then
          some (.msg "AssertMetricMissing failed: atleast one query failed with something other than a NOT_FOUND error")
        else none := by
  intro attempts
  induction attempts with
  | nil => intro cnt _; simp [ammGo]
  | cons it rest ih =>
    intro cnt h
    have hhead := h it (by simp)
    have hrec := ih (cnt + 1) fun i hi => h i (by simp [hi])
    simp only [ammGo, hhead]
    have hr : isRetriableLookupError (.grpcStatus .notFound) = true := rfl
    have hs : statusFromError (.grpcStatus .notFound) = some .notFound := rfl
    simp only [hr, hs, Bool.not_true, Bool.false_eq_true, if_false, reduceIte,
      decide_True, Bool.and_true, Bool.and_self]
    rw [hrec]
    simp only [List.length_cons]
    have harith : cnt + 1 + rest.length = cnt + (rest.length + 1) := by omega
    rw [harith]

/-- In non-Prometheus mode, a run in which every attempt errors produces an
error: retriable errors exhaust the loop into the "no successful queries"
failure, and a non-retriable error fails at once. -/
theorem ammGo_all_error_nonprom :
    ∀ (attempts : List MetricIter) (cnt : Nat),
      (∀ it ∈ attempts, ((nonEmptySeriesList it 1).2).isSome = true) →
      (ammGo false attempts cnt).isSome = true := by
  intro attempts
  induction attempts with
  | nil => intro cnt _; simp [ammGo]
  | cons it rest ih =>
    intro cnt h
    have hhead := h it (by simp)
    rcases he : (nonEmptySeriesList it 1).2 with _ | e
    · rw [he] at hhead; simp at hhead
    · simp only [ammGo, he]
      by_cases hr : isRetriableLookupError e
      · simpa [hr] using ih _ fun i hi => h i (by simp [hi])
      · simp [hr]

/-- A confirmed-empty first attempt makes the loop succeed at once. -/
theorem ammGo_confirmed_empty_first (it : MetricIter) (rest : List MetricIter)
    (isProm : Bool) (cnt : Nat) (h : nonEmptySeriesList it 1 = (none, none)) :
    ammGo isProm (it :: rest) cnt = none := by
  simp [ammGo, h]

/-- When the attempts before `it` all yield retriable errors and `it` yields
actual data, the loop fails at `it` with the "unexpectedly found data" error,
independently of any later attempts. -/
theorem ammGo_data_found :
    ∀ (pre : List MetricIter) (it : MetricIter) (post1 post2 : List MetricIter)
      (isProm : Bool) (cnt : Nat) (l : List TimeSeries),
      (∀ i ∈ pre, ∃ e, (nonEmptySeriesList i 1).2 = some e ∧
          isRetriableLookupError e = true) →
      nonEmptySeriesList it 1 = (some l, none) → l ≠ [] →
      ammGo isProm (pre ++ it :: post1) cnt =
        some (.msg "AssertMetricMissing failed: unexpectedly found data for metric") ∧
      ammGo isProm (pre ++ it :: post1) cnt = ammGo isProm (pre ++ it :: post2) cnt := by
  intro pre
  induction pre with
  | nil =>
    intro it post1 post2 isProm cnt l _ hit hl
    have hlen : 0 < l.length := List.length_pos.mpr hl
    constructor <;> simp [ammGo, hit, hlen]
  | cons i0 rest ih =>
    intro it post1 post2 isProm cnt l hpre hit hl
    obtain ⟨e, he, hr⟩ := hpre i0 (by simp)
    have hrec := ih it post1 post2 isProm
      (if statusFromError e = some .notFound && isProm then cnt + 1 else cnt) l
      (fun i hi => hpre i (by simp [hi])) hit hl
    simp only [List.cons_append, ammGo, he, hr, Bool.not_true, Bool.false_eq_true,
      if_false, reduceIte]
    exact hrec

/-- C8: `AssertMetricMissing` succeeds when the query attempts yield only
confirmed-empty results, and fails — with the "unexpectedly found data"
error, ignoring any later attempts — as soon as an attempt yields actual
data; in Prometheus mode a run in which every one of the
`queryMaxAttemptsMetricMissing` attempts fails with a NotFound status also
succeeds, while in non-Prometheus mode a run with no successful query
fails. -/
theorem assertMetricMissing_spec :
    (∀ (attempts : List MetricIter) (isProm : Bool), attempts ≠ [] →
        (∀ it ∈ attempts, nonEmptySeriesList it 1 = (none, none)) →
        AssertMetricMissing attempts isProm = none) ∧
    (∀ (pre : List MetricIter) (it : MetricIter) (post : List MetricIter)
        (isProm : Bool) (l : List TimeSeries),
        (∀ i ∈ pre, ∃ e, (nonEmptySeriesList i 1).2 = some e ∧
            isRetriableLookupError e = true) →
        nonEmptySeriesList it 1 = (some l, none) → l ≠ [] →
        AssertMetricMissing (pre ++ it :: post) isProm =
          some (.msg "AssertMetricMissing failed: unexpectedly found data for metric") ∧
        AssertMetricMissing (pre ++ it :: post) isProm
          = AssertMetricMissing (pre ++ [it]) isProm) ∧
    (∀ attempts : List MetricIter,
        attempts.length = queryMaxAttemptsMetricMissing →
        (∀ it ∈ attempts, (nonEmptySeriesList it 1).2 = some (.grpcStatus .notFound)) →
        AssertMetricMissing attempts true = none) ∧
    (∀ attempts : List MetricIter,
        (∀ it ∈ attempts, ((nonEmptySeriesList it 1).2).isSome = true) →
        (AssertMetricMissing attempts false).isSome = true) := by
  refine ⟨?_, ?_, ?_, ?_⟩
  · intro attempts isProm hne h
    cases attempts with
    | nil => exact absurd rfl hne
    | cons it rest =>
      exact ammGo_confirmed_empty_first it rest isProm 0 (h it (by simp))
  · intro pre it post isProm l hpre hit hl
    exact ammGo_data_found pre it post [] isProm 0 l hpre hit hl
  · intro attempts hlen h
    have := ammGo_all_notfound attempts 0 h
    rw [hlen] at this
    simpa [AssertMetricMissing] using this
  · intro attempts h
    exact ammGo_all_error_nonprom attempts 0 h

/-- Witness for C8: five Prometheus query attempts all failing with NotFound
count as success. -/
theorem assertMetricMissing_spec_witness :
    AssertMetricMissing
        (List.replicate queryMaxAttemptsMetricMissing
          ([Except.error (.grpcStatus .notFound)] : MetricIter)) true = none :=
  assertMetricMissing_spec.2.2.1
    (List.replicate queryMaxAttemptsMetricMissing
      ([Except.error (.grpcStatus .notFound)] : MetricIter))
    (by decide) (by decide)

/-! ## Helper lemmas about the Zone Selector -/

theorem wrrExpand_length (zs : List (String × Nat)) :
    (wrrExpand zs).length = wrrWeightSum zs := by
  induction zs with
  | nil => simp [wrrExpand, wrrWeightSum]
  | cons zw rest ih => simp [wrrExpand, wrrWeightSum] at ih ⊢; omega

/-- A window of `n` calls reads `n` consecutive positions (mod the length) of
the expanded weighted sequence. -/
theorem wrrWindow_map (zs : List (String × Nat)) :
    ∀ n c : Nat,
      wrrWindow { zones := zs, cursor := c } n
        = (List.range n).map
            (fun i => (wrrExpand zs).getD ((c + i) % (wrrExpand zs).length) "") := by
  intro n
  induction n with
  | zero => intro c; simp [wrrWindow]
  | succ k ih =>
    intro c
    rw [wrrWindow]
    simp only [WeightedRoundRobin.next]
    rw [ih (c + 1), List.range_succ_eq_map, List.map_cons, List.map_map]
    congr 1
    refine List.map_congr_left fun a ha => ?_
    simp only [Function.comp_apply, Nat.succ_eq_add_one]
    have h4 : c + 1 + a = c + (a + 1) := by omega
    rw [h4]

/-- A window whose length is the length of the expanded sequence is a rotation
of that sequence. -/
theorem wrrWindow_eq_rotate (zs : List (String × Nat)) (c : Nat)
    (hL : 0 < (wrrExpand zs).length) :
    wrrWindow { zones := zs, cursor := c } (wrrExpand zs).length
      = (wrrExpand zs).rotate (c % (wrrExpand zs).length) := by
  rw [wrrWindow_map]
  apply List.ext_getElem
  · simp [List.length_rotate]
  · intro i h1 h2
    have hi : i < (wrrExpand zs).length := by
      simpa [List.length_rotate] using h2
    have hm : (c + i) % (wrrExpand zs).length < (wrrExpand zs).length :=
      Nat.mod_lt _ hL
    rw [List.getElem_map, List.getElem_range, List.getD_eq_getElem?_getD,
      List.getElem?_eq_getElem hm, Option.getD_some, List.getElem_rotate]
    congr 1
    rw [Nat.add_mod c i, Nat.mod_eq_of_lt hi, Nat.add_comm (c % (wrrExpand zs).length) i]

theorem wrrExpand_cons (zw : String × Nat) (rest : List (String × Nat)) :
    wrrExpand (zw :: rest) = List.replicate zw.2 zw.1 ++ wrrExpand rest := by
  simp [wrrExpand]

theorem count_expand_of_not_mem (z : String) :
    ∀ zs : List (String × Nat), z ∉ zs.map Prod.fst →
      List.count z (wrrExpand zs) = 0 := by
  intro zs
  induction zs with
  | nil => intro _; simp [wrrExpand]
  | cons zw rest ih =>
    intro h
    have h1 : ¬zw.1 = z := by
      intro hc; exact h (by simp [← hc])
    have h2 : z ∉ rest.map Prod.fst := fun hc => h (by simp [hc])
    have hcr : List.count z (List.replicate zw.2 zw.1) = 0 := by
      simp [List.count_replicate, h1]
    rw [wrrExpand_cons, List.count_append, hcr, ih h2]

theorem count_expand (z : String) (w : Nat) :
    ∀ zs : List (String × Nat), (zs.map Prod.fst).Nodup → (z, w) ∈ zs →
      List.count z (wrrExpand zs) = w := by
  intro zs
  induction zs with
  | nil => intro _ h; simp at h
  | cons zw rest ih =>
    intro hnd hmem
    have hnd' : (rest.map Prod.fst).Nodup := (List.nodup_cons.mp hnd).2
    have hhead : zw.1 ∉ rest.map Prod.fst := (List.nodup_cons.mp hnd).1
    rcases List.mem_cons.mp hmem with heq | hrest
    · have hz : zw.1 = z := by rw [← heq]
      have hw : zw.2 = w := by rw [← heq]
      have h0 : List.count z (wrrExpand rest) = 0 :=
        count_expand_of_not_mem z rest (hz ▸ hhead)
      have hcr : List.count z (List.replicate zw.2 zw.1) = w := by
        simp [List.count_replicate, hz, hw]
      rw [wrrExpand_cons, List.count_append, hcr, h0]
      omega
    · have hz : ¬zw.1 = z := by
        intro hc
        exact hhead (hc ▸ List.mem_map_of_mem Prod.fst hrest)
      have hcr : List.count z (List.replicate zw.2 zw.1) = 0 := by
        simp [List.count_replicate, hz]
      rw [wrrExpand_cons, List.count_append, hcr, ih hnd' hrest]
      omega

/-- C3: for a zone configuration with positive integer weights and distinct
zone names, any window of N consecutive `Next()` calls — N being the sum of
the weights, from any cursor position, hence stable across repeated
windows — returns each configured zone exactly its weight number of times. -/
theorem zone_picker_weighted_round_robin :
    ∀ p : WeightedRoundRobin,
      (∀ zw ∈ p.zones, 0 < zw.2) →
      (p.zones.map Prod.fst).Nodup →
      ∀ zw ∈ p.zones,
        List.count zw.1 (wrrWindow p (wrrWeightSum p.zones)) = zw.2 := by
  intro p hpos hnd zw hmem
  rcases p with ⟨zs, c⟩
  have hw : zw.2 ≤ wrrWeightSum zs := by
    have hmem' : zw.2 ∈ zs.map Prod.snd := List.mem_map_of_mem Prod.snd hmem
    exact List.single_le_sum (fun x _ => Nat.zero_le x) zw.2 hmem'
  have hL : 0 < (wrrExpand zs).length := by
    rw [wrrExpand_length]
    have := hpos zw hmem
    omega
  have hN : wrrWeightSum zs = (wrrExpand zs).length := (wrrExpand_length zs).symm
  simp only at hmem ⊢
  rw [hN, wrrWindow_eq_rotate zs c hL,
    (List.rotate_perm (wrrExpand zs) (c % (wrrExpand zs).length)).count_eq]
  exact count_expand zw.1 zw.2 zs hnd hmem

/-- Witness for C3: with weights A=2, B=1 and N=3, a 3-call window returns A
exactly twice. -/
theorem zone_picker_weighted_round_robin_witness :
    List.count "A"
        (wrrWindow { zones := [("A", 2), ("B", 1)], cursor := 0 }
          (wrrWeightSum [("A", 2), ("B", 1)])) = 2 :=
  zone_picker_weighted_round_robin
    { zones := [("A", 2), ("B", 1)], cursor := 0 }
    (by decide) (by decide) ("A", 2) (by decide)

end Gce
